import Mathlib

/-!
# IPMCC Commander — verification of the Quantitative Options Analytics core

A shallow embedding, in Lean 4, of the decision-engine core of the
`ipmcc-commander` backend, together with proofs of the behavioural
properties claimed by its specification.

Embedding conventions:
* Python floats are modelled as `ℝ` where the code uses transcendental
  functions (Black–Scholes pricing in `greeks_engine.py`) and as `ℚ`
  where the code only uses field arithmetic (`zero_dte.py`);
  Python ints are `ℤ`.
* Python `round(x, n)` rounds half to even; our model `roundR`/`roundQ`
  rounds half up.  Every concrete value appearing in a proof below is
  away from a half-way point, where the two conventions agree.
* Functions that read ambient state (today's date, module-level
  calendars, PRNG draws, service state) take that state as an explicit
  argument.
* Python exceptions and errors are modelled with `Option`/`Except` and
  explicit error fields, mirroring the dictionaries the code returns.
-/

/- ==================================================================
   Trading-window state machine  (src/backend/app/routers/zero_dte.py,
   `get_trading_windows`)
   ================================================================== -/

/-- One time-of-day trading window.  `start`/`stop` are minutes of the
exchange-local day (`stop` renders the Python key `end`, a reserved word
in Lean); the window covers `start ≤ minute < stop`. -/
structure TradingWindow where
  name : String
  start : ℤ
  stop : ℤ
  wtype : String
deriving DecidableEq

/-- The seven windows hard-coded in `get_trading_windows`. -/
def trading_windows : List TradingWindow :=
  [ ⟨"Pre-Market", 480, 570, "prep"⟩,
    ⟨"Opening Range", 570, 585, "avoid"⟩,
    ⟨"Optimal Entry", 585, 615, "optimal"⟩,
    ⟨"Mid-Day", 615, 840, "manage"⟩,
    ⟨"Power Hour", 840, 900, "caution"⟩,
    ⟨"Danger Zone", 900, 950, "danger"⟩,
    ⟨"Final Minutes", 950, 960, "lethal"⟩ ]

/-- Membership test of a minute in a window (`w['start'] <= minutes < w['end']`). -/
def windowContains (m : ℤ) (w : TradingWindow) : Bool :=
  decide (w.start ≤ m) && decide (m < w.stop)

/-- The `current` window: first window containing the minute, else `None`. -/
def current_window (minutes : ℤ) : Option TradingWindow :=
  trading_windows.find? (windowContains minutes)

/-- `market_open` flag of the `get_trading_windows` response:
`570 <= minutes < 960`. -/
def market_open (minutes : ℤ) : Bool :=
  decide (570 ≤ minutes) && decide (minutes < 960)

/- ==================================================================
   0-DTE decision composition
   (src/backend/app/routers/scanner_router.py, `scan_0dte`,
   lines 399–424: macro adjustment, final confidence, status override)
   ================================================================== -/

/-- The decision composition performed by `scan_0dte` after
`analyze_desk_signal` has produced the technical base
(`technical["confidence"]`, `technical["status"]`) and
`get_event_horizon` has produced the macro inputs.  The sector check
(`flow_direction == "outflow"` on the market snapshot) is passed as the
Boolean it decides.  Returns `(final_confidence, final_status)`. -/
def scan_0dte_compose (technical_confidence : ℤ) (technical_status : String)
    (event_macro_adjustment : ℤ) (has_binary_event : Bool)
    (sector_outflow : Bool) : ℤ × String :=
  let macro_adjustment :=
    event_macro_adjustment + (if sector_outflow then -10 else 0)
  let final_confidence := max 0 (min 100 (technical_confidence + macro_adjustment))
  let final_status :=
    if has_binary_event then "no_trade"
    else if final_confidence < 30 then "no_trade"
    else if final_confidence < 50 && technical_status == "green_light" then "caution"
    else technical_status
  (final_confidence, final_status)

/- ==================================================================
   0-DTE event horizon  (src/backend/app/services/event_0dte_service.py)
   ================================================================== -/

/-- A scheduled binary event.  Dates are modelled as day numbers (`ℤ`),
so `(event_date - today).days` becomes plain subtraction. -/
structure BinaryEvent where
  event_type : String
  date : ℤ
  days_away : ℤ
  impact : String
  description : String
deriving DecidableEq

/-- One entry of the user-maintained blackout list
(`{"date": ..., "event": ..., "impact": ...}`); `impact` is optional
because the Python dict may omit the key (`item.get("impact", "high")`). -/
structure BlackoutItem where
  date : ℤ
  event : String
  impact : Option String
deriving DecidableEq

/-- Result of `Event0DTEService.get_event_horizon`. -/
structure EventHorizonResult where
  events : List BinaryEvent
  has_binary_event : Bool
  event_override : Option String
  macro_adjustment : ℤ
  warnings : List String

/-- `Event0DTEService.BLOCK_THRESHOLD` (days, absolute no-trade). -/
def BLOCK_THRESHOLD : ℤ := 2
/-- `Event0DTEService.HIGH_RISK_THRESHOLD` (days, high-risk warning). -/
def HIGH_RISK_THRESHOLD : ℤ := 5
/-- `Event0DTEService.CAUTION_THRESHOLD` (days, caution warning). -/
def CAUTION_THRESHOLD : ℤ := 10

/-- FOMC loop of `get_event_horizon`: the events appended for each FOMC
date within the caution window, in calendar-list order. -/
def fomcEvents (today : ℤ) (fomc_dates : List ℤ) : List BinaryEvent :=
  fomc_dates.filterMap (fun dt =>
    let days_away := dt - today
    if 0 ≤ days_away ∧ days_away ≤ CAUTION_THRESHOLD then
      some { event_type := "fomc", date := dt, days_away := days_away,
             impact := if days_away ≤ HIGH_RISK_THRESHOLD then "high" else "medium",
             description := s!"FOMC Meeting in {days_away} days" }
    else none)

/-- FOMC loop of `get_event_horizon`: the warnings appended. -/
def fomcWarnings (today : ℤ) (fomc_dates : List ℤ) : List String :=
  fomc_dates.filterMap (fun dt =>
    let days_away := dt - today
    if 0 ≤ days_away ∧ days_away ≤ CAUTION_THRESHOLD then
      some (if days_away ≤ BLOCK_THRESHOLD then
              s!"🛑 FOMC in {days_away} days - NO 0-DTE TRADES"
            else if days_away ≤ HIGH_RISK_THRESHOLD then
              s!"⚠️ FOMC in {days_away} days - HIGH RISK"
            else
              s!"📅 FOMC approaching in {days_away} days")
    else none)

/-- FOMC loop of `get_event_horizon`: total confidence adjustment
accumulated (−50 inside the block window, −25 inside the high-risk
window, −10 inside the caution window). -/
def fomcAdjustment (today : ℤ) (fomc_dates : List ℤ) : ℤ :=
  (fomc_dates.map (fun dt =>
    let days_away := dt - today
    if 0 ≤ days_away ∧ days_away ≤ CAUTION_THRESHOLD then
      if days_away ≤ BLOCK_THRESHOLD then -50
      else if days_away ≤ HIGH_RISK_THRESHOLD then -25
      else -10
    else 0)).sum

/-- Blackout loop of `get_event_horizon`: the events appended.  Inside
the block window the stored impact is overridden to `"high"`, otherwise
the item's own impact (default `"high"`) is used. -/
def blackoutEvents (today : ℤ) (blackout_dates : List BlackoutItem) : List BinaryEvent :=
  blackout_dates.filterMap (fun item =>
    let days_away := item.date - today
    if 0 ≤ days_away ∧ days_away ≤ CAUTION_THRESHOLD then
      some { event_type := "blackout", date := item.date, days_away := days_away,
             impact := if days_away ≤ BLOCK_THRESHOLD then "high"
                       else item.impact.getD "high",
             description := s!"{item.event} in {days_away} days" }
    else none)

/-- Blackout loop of `get_event_horizon`: the warnings appended. -/
def blackoutWarnings (today : ℤ) (blackout_dates : List BlackoutItem) : List String :=
  blackout_dates.filterMap (fun item =>
    let days_away := item.date - today
    if 0 ≤ days_away ∧ days_away ≤ CAUTION_THRESHOLD then
      some (if days_away ≤ BLOCK_THRESHOLD ∧ item.impact.getD "high" = "high" then
              s!"🛑 {item.event} in {days_away} days - NO 0-DTE TRADES"
            else if days_away ≤ HIGH_RISK_THRESHOLD then
              s!"⚠️ {item.event} in {days_away} days"
            else
              s!"📅 {item.event} approaching")
    else none)

/-- Blackout loop of `get_event_horizon`: total confidence adjustment
(−50 in the block window for high-impact items, −20 in the high-risk
window, −5 in the caution window). -/
def blackoutAdjustment (today : ℤ) (blackout_dates : List BlackoutItem) : ℤ :=
  (blackout_dates.map (fun item =>
    let days_away := item.date - today
    if 0 ≤ days_away ∧ days_away ≤ CAUTION_THRESHOLD then
      if days_away ≤ BLOCK_THRESHOLD ∧ item.impact.getD "high" = "high" then -50
      else if days_away ≤ HIGH_RISK_THRESHOLD then -20
      else -5
    else 0)).sum

/-- The predicate `events.sort(key=lambda e: e.days_away)` sorts by;
Python's sort is stable, which `List.insertionSort` matches. -/
def eventLE (a b : BinaryEvent) : Prop := a.days_away ≤ b.days_away

instance : DecidableRel eventLE := fun a b => by
  unfold eventLE; infer_instance

/-- The blocking predicate of `get_event_horizon`: the code tests
`e.days_away <= self.HIGH_RISK_THRESHOLD and e.impact == "high"` both
for `has_binary_event` and for the override-message list. -/
def isBlockingEvent (e : BinaryEvent) : Bool :=
  decide (e.days_away ≤ HIGH_RISK_THRESHOLD) && e.impact == "high"

/-- `Event0DTEService.get_event_horizon`, with the ambient state
(today's date, the module calendar `FOMC_DATES`, the instance blackout
list) passed explicitly. -/
def get_event_horizon (today : ℤ) (fomc_dates : List ℤ)
    (blackout_dates : List BlackoutItem) : EventHorizonResult :=
  let events := List.insertionSort eventLE
    (fomcEvents today fomc_dates ++ blackoutEvents today blackout_dates)
  let warnings := fomcWarnings today fomc_dates ++ blackoutWarnings today blackout_dates
  let macro_adjustment := fomcAdjustment today fomc_dates + blackoutAdjustment today blackout_dates
  let has_binary_event := events.any isBlockingEvent
  let event_override :=
    if has_binary_event then
      some ("HOLD/WAIT: Technical setup invalid due to: " ++
        String.intercalate ", " ((events.filter isBlockingEvent).map (·.description)))
    else none
  { events := events
    has_binary_event := has_binary_event
    event_override := event_override
    macro_adjustment := max (-50) macro_adjustment
    warnings := warnings }

/-- `Event0DTEService.add_blackout_date`: appends a single entry to the
instance's blackout list.  The Python default for `impact` is `"high"`. -/
def add_blackout_date (blackout_dates : List BlackoutItem)
    (date : ℤ) (event_name : String) (impact : String) : List BlackoutItem :=
  blackout_dates ++ [{ date := date, event := event_name, impact := some impact }]

/-- `Event0DTEService.remove_blackout_date`: keeps exactly the entries
whose date differs from the given one. -/
def remove_blackout_date (blackout_dates : List BlackoutItem)
    (date : ℤ) : List BlackoutItem :=
  blackout_dates.filter (fun d => d.date != date)

/-- `Event0DTEService.update_blackout_dates`: replaces the whole list. -/
def update_blackout_dates (_blackout_dates : List BlackoutItem)
    (dates : List BlackoutItem) : List BlackoutItem :=
  dates

/- ==================================================================
   GEX profile and key levels  (src/backend/app/routers/zero_dte.py)
   ================================================================== -/

/-- Python `round(x, n)` on exact rational values (half-up model; see
the header note on half-even). -/
def roundQ (n : ℕ) (x : ℚ) : ℚ := ((round (x * 10 ^ n) : ℤ) : ℚ) / 10 ^ n

/-- Python `int(x)` for the non-negative values it is applied to below
(truncation toward zero coincides with `⌊·⌋` there). -/
def pyInt (x : ℚ) : ℤ := ⌊x⌋

/-- One per-strike GEX profile entry (`zero_dte.GEXLevel`). -/
structure GEXLevel where
  strike : ℚ
  net_gex : ℚ
  call_gex : ℚ
  put_gex : ℚ
  call_oi : ℤ
  put_oi : ℤ
  call_volume : ℤ
  put_volume : ℤ
  level_type : String
deriving DecidableEq

/-- Result of `find_key_levels` (`zero_dte.KeyLevels`). -/
structure KeyLevels where
  call_wall : ℚ
  put_wall : ℚ
  gamma_flip : ℚ
  max_pain : ℚ
  zero_gamma : ℚ
deriving DecidableEq

/-- Case-insensitive comparison `underlying.upper() == 'SPX'`. -/
def upperEq (s t : String) : Bool := s.data.map Char.toUpper == t.data

/-- `generate_estimated_gex`: the synthetic strike ladder used when no
live option chain is available.  The call seeds Python's PRNG with
`int(spot_price)` and draws one `random.uniform(-0.3, 0.3)` per strike;
those draws are passed in as `noise` (indexed by the ladder offset `i ∈
[-10, 10]`), the rest is the source computation verbatim. -/
def generate_estimated_gex (noise : ℤ → ℚ) (spot_price : ℚ)
    (underlying : String) : List GEXLevel :=
  let interval : ℚ := if upperEq underlying "SPX" then 50 else 5
  let base_strike : ℚ := ((round (spot_price / interval) : ℤ) : ℚ) * interval
  ([-10, -9, -8, -7, -6, -5, -4, -3, -2, -1, 0,
    1, 2, 3, 4, 5, 6, 7, 8, 9, 10] : List ℤ).map (fun (i : ℤ) =>
    let strike := base_strike + (i : ℚ) * interval
    let distance := |strike - spot_price| / spot_price
    let base_gex := max 0.1 (2.0 - distance * 30) * (1 + noise i)
    let call_gex := if strike > spot_price then base_gex * 1.5 else base_gex * 0.3
    let put_gex := if strike > spot_price then -base_gex * 0.3 else -base_gex * 1.5
    let branch_type :=
      if strike > spot_price then
        if call_gex > 1.5 then "call_wall" else "neutral"
      else
        if put_gex < -1.5 then "put_wall" else "neutral"
    let level_type :=
      if |strike - spot_price| < interval * 0.6 then "gamma_flip" else branch_type
    { strike := strike
      net_gex := roundQ 3 (call_gex + put_gex)
      call_gex := roundQ 3 call_gex
      put_gex := roundQ 3 put_gex
      call_oi := pyInt (base_gex * 8000)
      put_oi := pyInt (|put_gex| * 6000)
      call_volume := pyInt (base_gex * 4000)
      put_volume := pyInt (|put_gex| * 3000)
      level_type := level_type })

/-- The per-strike level construction of `calculate_gex_from_chain`
(lines 228–254): given the open interest, volume and gamma aggregated
from the chain for one strike, build its `GEXLevel`.  The surrounding
dictionary aggregation is data plumbing feeding these eight values. -/
def gex_level_from_strike_data (spot_price strike : ℚ)
    (call_oi put_oi call_volume put_volume : ℤ)
    (call_gamma put_gamma : ℚ) : GEXLevel :=
  let call_gex := call_gamma * call_oi * 100 * spot_price ^ 2 / 1000000000
  let put_gex := -put_gamma * put_oi * 100 * spot_price ^ 2 / 1000000000
  let net_gex := call_gex + put_gex
  let level_type :=
    if call_gex > 0.3 then "call_wall"
    else if put_gex < -0.3 then "put_wall"
    else if |net_gex| < 0.1 then "gamma_flip"
    else "neutral"
  { strike := strike
    net_gex := roundQ 4 net_gex
    call_gex := roundQ 4 call_gex
    put_gex := roundQ 4 put_gex
    call_oi := call_oi
    put_oi := put_oi
    call_volume := call_volume
    put_volume := put_volume
    level_type := level_type }

/-- Python `max(it, key=f)`: first element with maximal key. -/
def pyMaxBy (f : GEXLevel → ℚ) : GEXLevel → List GEXLevel → GEXLevel
  | best, [] => best
  | best, x :: xs => pyMaxBy f (if f x > f best then x else best) xs

/-- Python `min(it, key=f)`: first element with minimal key. -/
def pyMinBy (f : GEXLevel → ℚ) : GEXLevel → List GEXLevel → GEXLevel
  | best, [] => best
  | best, x :: xs => pyMinBy f (if f x < f best then x else best) xs

/-- `find_key_levels`: structural levels derived from a GEX profile. -/
def find_key_levels (gex_levels : List GEXLevel) (spot_price : ℚ) : KeyLevels :=
  match gex_levels with
  | [] =>
    { call_wall := spot_price + 50, put_wall := spot_price - 50,
      gamma_flip := spot_price, max_pain := spot_price, zero_gamma := spot_price }
  | g0 :: gs =>
    let above_spot := (g0 :: gs).filter (fun g => decide (g.strike > spot_price))
    let call_wall :=
      match above_spot with
      | [] => spot_price + 50
      | a :: as_ => (pyMaxBy (·.call_gex) a as_).strike
    let below_spot := (g0 :: gs).filter (fun g => decide (g.strike < spot_price))
    let put_wall :=
      match below_spot with
      | [] => spot_price - 50
      | b :: bs => (pyMinBy (·.put_gex) b bs).strike
    let flip := (g0 :: gs).filter (fun g => g.level_type == "gamma_flip")
    let gamma_flip :=
      match flip with
      | [] => spot_price
      | f :: fs => (pyMinBy (fun x => |x.strike - spot_price|) f fs).strike
    let max_pain := (pyMaxBy (fun x => (x.call_oi : ℚ) + (x.put_oi : ℚ)) g0 gs).strike
    { call_wall := call_wall, put_wall := put_wall, gamma_flip := gamma_flip,
      max_pain := max_pain, zero_gamma := gamma_flip }

/- ==================================================================
   Pricing primitives  (src/backend/app/services/greeks_engine.py)
   ================================================================== -/

/-- Python `round(x, n)` on real values (half-up model). -/
noncomputable def roundR (n : ℕ) (x : ℝ) : ℝ := ((round (x * 10 ^ n) : ℤ) : ℝ) / 10 ^ n

/-- Modelled from the spec: the standard normal density φ used by the
closed-form Black–Scholes sensitivities.  The pricing library the code
delegates to (`mibian`, with `scipy.stats.norm`) is a dependency whose
source is not part of this repository; §4.1 of the specification gives
the closed forms implemented here. -/
noncomputable def normPdf (x : ℝ) : ℝ :=
  Real.exp (-(x ^ 2) / 2) / Real.sqrt (2 * Real.pi)

/-- Modelled from the spec: the standard normal CDF Φ, written through
the error function, `Φ(x) = (1 + erf(x/√2))/2` with
`erf(z) = (2/√π)·∫_0^z exp(−t²) dt`.  See `normPdf` for why this is
spec-modelled. -/
noncomputable def normCdf (x : ℝ) : ℝ :=
  (1 + (2 / Real.sqrt Real.pi) *
    ∫ t in (0:ℝ)..(x / Real.sqrt 2), Real.exp (-t ^ 2)) / 2

/-- Black–Scholes `d1` (mibian convention: `rate` and `vol` already in
decimal form, `tau` in years). -/
noncomputable def bs_d1 (spot strike rate tau vol : ℝ) : ℝ :=
  (Real.log (spot / strike) + (rate + vol ^ 2 / 2) * tau) / (vol * Real.sqrt tau)

/-- Black–Scholes `d2 = d1 − vol·√tau`. -/
noncomputable def bs_d2 (spot strike rate tau vol : ℝ) : ℝ :=
  bs_d1 spot strike rate tau vol - vol * Real.sqrt tau

/-- Call price `spot·Φ(d1) − strike·e^{−r·tau}·Φ(d2)`. -/
noncomputable def bsCallPrice (spot strike rate tau vol : ℝ) : ℝ :=
  spot * normCdf (bs_d1 spot strike rate tau vol) -
    strike * Real.exp (-(rate * tau)) * normCdf (bs_d2 spot strike rate tau vol)

/-- Put price `strike·e^{−r·tau}·Φ(−d2) − spot·Φ(−d1)`. -/
noncomputable def bsPutPrice (spot strike rate tau vol : ℝ) : ℝ :=
  strike * Real.exp (-(rate * tau)) * normCdf (-(bs_d2 spot strike rate tau vol)) -
    spot * normCdf (-(bs_d1 spot strike rate tau vol))

/-- Gamma `φ(d1)/(spot·vol·√tau)`. -/
noncomputable def bsGamma (spot strike rate tau vol : ℝ) : ℝ :=
  normPdf (bs_d1 spot strike rate tau vol) / (spot * vol * Real.sqrt tau)

/-- Vega `spot·φ(d1)·√tau / 100` (per one vol point). -/
noncomputable def bsVega (spot strike rate tau vol : ℝ) : ℝ :=
  spot * normPdf (bs_d1 spot strike rate tau vol) * Real.sqrt tau / 100

/-- Daily call theta. -/
noncomputable def bsCallTheta (spot strike rate tau vol : ℝ) : ℝ :=
  (-(spot * normPdf (bs_d1 spot strike rate tau vol) * vol) / (2 * Real.sqrt tau) -
    rate * strike * Real.exp (-(rate * tau)) * normCdf (bs_d2 spot strike rate tau vol)) / 365

/-- Daily put theta (rate term sign flipped, on `Φ(−d2)`). -/
noncomputable def bsPutTheta (spot strike rate tau vol : ℝ) : ℝ :=
  (-(spot * normPdf (bs_d1 spot strike rate tau vol) * vol) / (2 * Real.sqrt tau) +
    rate * strike * Real.exp (-(rate * tau)) * normCdf (-(bs_d2 spot strike rate tau vol))) / 365

/-- The dictionary `calculate_call_greeks` / `calculate_put_greeks`
return on their success paths.  `error` is the dict's `"error"` value. -/
structure LegGreeks where
  price : ℝ
  delta : ℝ
  gamma : ℝ
  theta : ℝ
  vega : ℝ
  intrinsic : ℝ
  extrinsic : ℝ
  dte : ℤ
  iv : ℝ
  error : Option String

/-- Outcome of one leg computation: `failure` is the bare
`{"error": str(e)}` dict of the `except` branch, `result` a full
greeks dictionary (whose own `error` entry may still be set). -/
inductive GreeksOutcome where
  | failure (msg : String)
  | result (g : LegGreeks)

/-- The `risk_free_rate` of the singleton `GreeksEngine()` (5.0 %). -/
def risk_free_rate : ℝ := 5

/-- `GreeksEngine.calculate_call_greeks`.  For `days_to_expiry ≤ 0` the
intrinsic-value dictionary is returned (with the `"Option has expired"`
error recorded when strictly negative); otherwise mibian's Black–Scholes
values, with mibian's unit conversions `r = rate/100`, `tau = days/365`,
`vol = volatility/100`.  mibian raises (→ `failure`) exactly when its
math domain is violated: non-positive spot or strike (`log`), or zero
volatility (division by zero). -/
noncomputable def calculate_call_greeks (stock_price strike : ℝ)
    (days_to_expiry : ℤ) (volatility : ℝ) : GreeksOutcome :=
  if days_to_expiry ≤ 0 then
    .result
      { price := max 0 (stock_price - strike)
        delta := if stock_price > strike then 100 else 0
        gamma := 0, theta := 0, vega := 0
        intrinsic := roundR 2 (max 0 (stock_price - strike))
        extrinsic := 0
        dte := 0
        iv := volatility
        error := if days_to_expiry < 0 then some "Option has expired" else none }
  else if stock_price ≤ 0 ∨ strike ≤ 0 ∨ volatility = 0 then
    .failure "math domain error"
  else
    let rate := risk_free_rate / 100
    let tau := (days_to_expiry : ℝ) / 365
    let vol := volatility / 100
    let price := bsCallPrice stock_price strike rate tau vol
    let intrinsic := max 0 (stock_price - strike)
    let extrinsic := max 0 (price - intrinsic)
    .result
      { price := roundR 2 price
        delta := roundR 1 (normCdf (bs_d1 stock_price strike rate tau vol) * 100)
        gamma := roundR 4 (bsGamma stock_price strike rate tau vol)
        theta := roundR 4 (bsCallTheta stock_price strike rate tau vol)
        vega := roundR 4 (bsVega stock_price strike rate tau vol)
        intrinsic := roundR 2 intrinsic
        extrinsic := roundR 2 extrinsic
        dte := days_to_expiry
        iv := volatility
        error := none }

/-- `GreeksEngine.calculate_put_greeks` (same structure as the call
side; put delta is `(Φ(d1) − 1)·100`). -/
noncomputable def calculate_put_greeks (stock_price strike : ℝ)
    (days_to_expiry : ℤ) (volatility : ℝ) : GreeksOutcome :=
  if days_to_expiry ≤ 0 then
    .result
      { price := max 0 (strike - stock_price)
        delta := if stock_price < strike then -100 else 0
        gamma := 0, theta := 0, vega := 0
        intrinsic := roundR 2 (max 0 (strike - stock_price))
        extrinsic := 0
        dte := 0
        iv := volatility
        error := if days_to_expiry < 0 then some "Option has expired" else none }
  else if stock_price ≤ 0 ∨ strike ≤ 0 ∨ volatility = 0 then
    .failure "math domain error"
  else
    let rate := risk_free_rate / 100
    let tau := (days_to_expiry : ℝ) / 365
    let vol := volatility / 100
    let price := bsPutPrice stock_price strike rate tau vol
    let intrinsic := max 0 (strike - stock_price)
    let extrinsic := max 0 (price - intrinsic)
    .result
      { price := roundR 2 price
        delta := roundR 1 ((normCdf (bs_d1 stock_price strike rate tau vol) - 1) * 100)
        gamma := roundR 4 (bsGamma stock_price strike rate tau vol)
        theta := roundR 4 (bsPutTheta stock_price strike rate tau vol)
        vega := roundR 4 (bsVega stock_price strike rate tau vol)
        intrinsic := roundR 2 intrinsic
        extrinsic := roundR 2 extrinsic
        dte := days_to_expiry
        iv := volatility
        error := none }

/-- The error a caller observes on a leg dictionary: the message of the
`except` branch, or the dict's own `"error"` entry (`if "error" in
long_greeks and long_greeks["error"]`). -/
def legError : GreeksOutcome → Option String
  | .failure msg => some msg
  | .result g => g.error

/-- The `"price"` entry of a leg dictionary, when present. -/
def outPrice : GreeksOutcome → Option ℝ
  | .failure _ => none
  | .result g => some g.price

/-- The `"delta"` entry of a leg dictionary, when present. -/
def outDelta : GreeksOutcome → Option ℝ
  | .failure _ => none
  | .result g => some g.delta

/-- The `"gamma"` entry of a leg dictionary, when present. -/
def outGamma : GreeksOutcome → Option ℝ
  | .failure _ => none
  | .result g => some g.gamma

/-- The `"theta"` entry of a leg dictionary, when present. -/
def outTheta : GreeksOutcome → Option ℝ
  | .failure _ => none
  | .result g => some g.theta

/-- The `"vega"` entry of a leg dictionary, when present. -/
def outVega : GreeksOutcome → Option ℝ
  | .failure _ => none
  | .result g => some g.vega

/-- The `"extrinsic"` entry of a leg dictionary, when present. -/
def outExtrinsic : GreeksOutcome → Option ℝ
  | .failure _ => none
  | .result g => some g.extrinsic

/-- The `"net"` sub-dictionary of `calculate_ipmcc_position`. -/
structure IpmccNet where
  delta : ℝ
  gamma : ℝ
  theta : ℝ
  vega : ℝ

/-- The `"metrics"` sub-dictionary of `calculate_ipmcc_position`.
`weeks_to_breakeven = none` models Python's `float('inf')` (yield ≤ 0). -/
structure IpmccMetrics where
  capital_required : ℝ
  weekly_extrinsic : ℝ
  weeks_to_breakeven : Option ℝ
  theoretical_annual_roi : ℝ
  downside_vs_stock_percent : ℝ
  extrinsic_yield_percent : ℝ

/-- The success dictionary of `calculate_ipmcc_position`. -/
structure IpmccAnalysis where
  long : LegGreeks
  short : LegGreeks
  net : IpmccNet
  metrics : IpmccMetrics

/-- `GreeksEngine.calculate_ipmcc_position`: both legs are priced as
calls via `calculate_call_greeks`; a truthy `"error"` on either leg is
propagated; otherwise net greeks and position metrics are computed.
Note that no structural check relates the strikes or the expiries. -/
noncomputable def calculate_ipmcc_position (stock_price long_strike : ℝ)
    (long_dte : ℤ) (long_iv short_strike : ℝ) (short_dte : ℤ)
    (short_iv : ℝ) (quantity : ℤ) : Except String IpmccAnalysis :=
  let long_outcome := calculate_call_greeks stock_price long_strike long_dte long_iv
  let short_outcome := calculate_call_greeks stock_price short_strike short_dte short_iv
  match long_outcome with
  | .failure msg => .error ("Long leg error: " ++ msg)
  | .result long_greeks =>
    match long_greeks.error with
    | some msg => .error ("Long leg error: " ++ msg)
    | none =>
      match short_outcome with
      | .failure msg => .error ("Short leg error: " ++ msg)
      | .result short_greeks =>
        match short_greeks.error with
        | some msg => .error ("Short leg error: " ++ msg)
        | none =>
          let q : ℝ := (quantity : ℝ)
          let net_delta := (long_greeks.delta - short_greeks.delta) * q
          let net_gamma := (long_greeks.gamma - short_greeks.gamma) * q
          let net_theta := (-short_greeks.theta + long_greeks.theta) * q
          let net_vega := (long_greeks.vega - short_greeks.vega) * q
          let capital_required := long_greeks.price * 100 * q
          let weekly_extrinsic := short_greeks.extrinsic * 100 * q
          let weeks_to_breakeven :=
            if weekly_extrinsic > 0 then some (capital_required / weekly_extrinsic)
            else none
          let annual_roi :=
            if capital_required > 0 then weekly_extrinsic * 52 / capital_required * 100
            else 0
          let stock_cost := stock_price * 100 * q
          let capital_savings :=
            if stock_cost > 0 then (1 - capital_required / stock_cost) * 100 else 0
          .ok
            { long := long_greeks
              short := short_greeks
              net :=
                { delta := roundR 1 net_delta
                  gamma := roundR 4 net_gamma
                  theta := roundR 2 net_theta
                  vega := roundR 2 net_vega }
              metrics :=
                { capital_required := roundR 2 capital_required
                  weekly_extrinsic := roundR 2 weekly_extrinsic
                  weeks_to_breakeven := weeks_to_breakeven.map (roundR 1)
                  theoretical_annual_roi := roundR 1 annual_roi
                  downside_vs_stock_percent := roundR 1 capital_savings
                  extrinsic_yield_percent :=
                    if long_greeks.price > 0 then
                      roundR 2 (short_greeks.extrinsic / long_greeks.price * 100)
                    else 0 } }

/-- Whether `calculate_ipmcc_position` returned a computed analysis
rather than an error dictionary. -/
def ipmccOk : Except String IpmccAnalysis → Bool
  | .ok _ => true
  | .error _ => false

/-- `GreeksEngine.implied_volatility_from_price`.  The underlying
root-finding solver is mibian's (external to this repository); its
outcome — a volatility, or a raised exception on failure — is passed in
as `solver_outcome`.  The wrapper returns `None` for invalid inputs
(`days_to_expiry <= 0 or option_price <= 0`) *and* maps any solver
failure to `None` as well (the `except` branch logs and returns `None`). -/
def implied_volatility_from_price (solver_outcome : Except String ℚ)
    (days_to_expiry : ℤ) (option_price : ℚ) : Option ℚ :=
  if days_to_expiry ≤ 0 ∨ option_price ≤ 0 then none
  else
    match solver_outcome with
    | .ok vol => some (roundQ 2 vol)
    | .error _ => none

/- ==================================================================
   Theorems
   ================================================================== -/

/-- C10: the trading-window lookup defines exactly seven pairwise
non-overlapping, contiguous minute intervals jointly covering minutes
480–959: every such minute lies in exactly one window (and the lookup
finds it), while any minute before 480 or at/after 960 yields no
window at all and `market_open = false`. -/
theorem trading_windows_partition (m : ℤ) :
    trading_windows.length = 7
    ∧ (480 ≤ m → m < 960 →
        (trading_windows.countP (windowContains m) = 1
          ∧ (current_window m).isSome = true))
    ∧ (m < 480 ∨ 960 ≤ m →
        current_window m = none ∧ market_open m = false) := by
  refine ⟨rfl, ?_, ?_⟩
  · intro h1 h2
    constructor
    · simp only [trading_windows, windowContains, List.countP_cons, List.countP_nil,
        Bool.and_eq_true, decide_eq_true_eq]
      split_ifs <;> omega
    · simp only [current_window, trading_windows, windowContains, List.find?]
      repeat' split
      all_goals simp_all
  · intro h
    constructor
    · simp only [current_window, trading_windows, windowContains, List.find?]
      repeat' split
      all_goals simp_all
      all_goals omega
    · simp only [market_open, Bool.and_eq_false_iff, decide_eq_false_iff_not]
      omega

/-- C10 witness: minute 600 (10:00) lies in exactly one window and the
lookup finds it; minute 1000 (16:40) yields no window and a closed
market. -/
theorem trading_windows_partition_witness :
    (trading_windows.countP (windowContains 600) = 1
      ∧ (current_window 600).isSome = true)
    ∧ (current_window 1000 = none ∧ market_open 1000 = false) :=
  ⟨(trading_windows_partition 600).2.1 (by decide) (by decide),
   (trading_windows_partition 1000).2.2 (Or.inr (by decide))⟩

/-- C2: for every base technical confidence and every event-horizon /
macro input, `scan_0dte` returns
`final_confidence = clamp(base + macro_adjustment, 0, 100)` (the macro
adjustment being the event adjustment plus the −10 sector penalty),
which lies in `[0, 100]`; and whenever `has_binary_event` is true the
returned status is `no_trade`, regardless of the base confidence. -/
theorem scan_0dte_compose_spec (technical_confidence : ℤ)
    (technical_status : String) (event_macro_adjustment : ℤ)
    (has_binary_event sector_outflow : Bool) :
    (scan_0dte_compose technical_confidence technical_status
        event_macro_adjustment has_binary_event sector_outflow).1
      = max 0 (min 100 (technical_confidence +
          (event_macro_adjustment + (if sector_outflow then -10 else 0))))
    ∧ 0 ≤ (scan_0dte_compose technical_confidence technical_status
        event_macro_adjustment has_binary_event sector_outflow).1
    ∧ (scan_0dte_compose technical_confidence technical_status
        event_macro_adjustment has_binary_event sector_outflow).1 ≤ 100
    ∧ (has_binary_event = true →
        (scan_0dte_compose technical_confidence technical_status
          event_macro_adjustment has_binary_event sector_outflow).2 = "no_trade") := by
  refine ⟨rfl, ?_, ?_, ?_⟩
  · simp only [scan_0dte_compose]
    split_ifs <;> omega
  · simp only [scan_0dte_compose]
    split_ifs <;> omega
  · intro hb
    simp only [scan_0dte_compose, hb, if_true]

/-- C2 witness: base confidence 95 with a blocking FOMC event
(event adjustment −50, binary-event flag set) still yields `no_trade`,
and the clamped confidence is within bounds. -/
theorem scan_0dte_compose_spec_witness :
    (scan_0dte_compose 95 "green_light" (-50) true false).2 = "no_trade"
    ∧ 0 ≤ (scan_0dte_compose 95 "green_light" (-50) true false).1
    ∧ (scan_0dte_compose 95 "green_light" (-50) true false).1 ≤ 100 :=
  ⟨(scan_0dte_compose_spec 95 "green_light" (-50) true false).2.2.2 rfl,
   (scan_0dte_compose_spec 95 "green_light" (-50) true false).2.1,
   (scan_0dte_compose_spec 95 "green_light" (-50) true false).2.2.1⟩

/-- C9 counterexample: the service's public blackout-date API is *not*
replace-only — `add_blackout_date` merges a single new entry into the
existing list (keeping the old entry), and `remove_blackout_date`
deletes a single entry (keeping the rest), at these concrete inputs. -/
theorem blackout_partial_merge_counterexample :
    add_blackout_date [⟨100, "CPI Release", some "high"⟩] 200 "PPI Release" "high"
      = [⟨100, "CPI Release", some "high"⟩, ⟨200, "PPI Release", some "high"⟩]
    ∧ remove_blackout_date
        [⟨100, "CPI Release", some "high"⟩, ⟨200, "PPI Release", some "high"⟩] 200
      = [⟨100, "CPI Release", some "high"⟩] := by
  constructor <;> rfl

/-- C9 amended: `update_blackout_dates` is a full replace (its result
does not depend on the previous list), but the service also exposes
partial single-entry mutations: `add_blackout_date` appends one entry
keeping every existing entry, and `remove_blackout_date` keeps exactly
the entries whose date differs from the one removed. -/
theorem blackout_ops_spec (s1 s2 dates st : List BlackoutItem) (d : ℤ)
    (n i : String) :
    update_blackout_dates s1 dates = update_blackout_dates s2 dates
    ∧ (∀ x ∈ st, x ∈ add_blackout_date st d n i)
    ∧ (∀ x ∈ st, x.date ≠ d → x ∈ remove_blackout_date st d)
    ∧ (∀ x ∈ remove_blackout_date st d, x.date ≠ d) := by
  refine ⟨rfl, ?_, ?_, ?_⟩
  · intro x hx
    exact List.mem_append_left _ hx
  · intro x hx hne
    simp only [remove_blackout_date, List.mem_filter, bne_iff_ne, ne_eq]
    exact ⟨hx, hne⟩
  · intro x hx
    simp only [remove_blackout_date, List.mem_filter, bne_iff_ne, ne_eq] at hx
    exact hx.2

/-- C9 witness for the amended statement, at concrete inputs. -/
theorem blackout_ops_spec_witness :
    update_blackout_dates [⟨1, "CPI", none⟩] [⟨7, "NFP", some "high"⟩]
      = update_blackout_dates [] [⟨7, "NFP", some "high"⟩]
    ∧ (⟨5, "CPI", some "high"⟩ : BlackoutItem)
        ∈ add_blackout_date [⟨5, "CPI", some "high"⟩] 9 "NFP" "high"
    ∧ (⟨5, "CPI", some "high"⟩ : BlackoutItem)
        ∈ remove_blackout_date [⟨5, "CPI", some "high"⟩] 9 :=
  ⟨(blackout_ops_spec [⟨1, "CPI", none⟩] [] [⟨7, "NFP", some "high"⟩]
      [⟨5, "CPI", some "high"⟩] 9 "NFP" "high").1,
   (blackout_ops_spec [⟨1, "CPI", none⟩] [] [⟨7, "NFP", some "high"⟩]
      [⟨5, "CPI", some "high"⟩] 9 "NFP" "high").2.1 _ (by simp),
   (blackout_ops_spec [⟨1, "CPI", none⟩] [] [⟨7, "NFP", some "high"⟩]
      [⟨5, "CPI", some "high"⟩] 9 "NFP" "high").2.2.1 _ (by simp) (by decide)⟩

/-- Sorting the event list does not change which events exist:
`any` over the sorted list equals `any` over the original. -/
theorem insertionSort_any (l : List BinaryEvent) (p : BinaryEvent → Bool) :
    (List.insertionSort eventLE l).any p = l.any p := by
  refine Bool.eq_iff_iff.mpr ?_
  simp only [List.any_eq_true]
  constructor
  · rintro ⟨e, he, hp⟩
    exact ⟨e, (List.perm_insertionSort eventLE l).mem_iff.mp he, hp⟩
  · rintro ⟨e, he, hp⟩
    exact ⟨e, (List.perm_insertionSort eventLE l).mem_iff.mpr he, hp⟩

/-- A FOMC calendar date produces a blocking event exactly when it is
0–5 days away (its impact is `"high"` precisely inside the high-risk
window, and blocking tests `days_away ≤ 5 ∧ impact = "high"`). -/
theorem fomc_any_blocking (today : ℤ) (dates : List ℤ) :
    (fomcEvents today dates).any isBlockingEvent = true ↔
      ∃ dt ∈ dates, 0 ≤ dt - today ∧ dt - today ≤ HIGH_RISK_THRESHOLD := by
  induction dates with
  | nil => simp [fomcEvents]
  | cons d rest ih =>
    simp only [fomcEvents, List.filterMap_cons] at ih ⊢
    by_cases h : 0 ≤ d - today ∧ d - today ≤ CAUTION_THRESHOLD
    · rw [if_pos h]
      simp only [List.any_cons, Bool.or_eq_true, ih, List.mem_cons]
      constructor
      · rintro (hb | ⟨dt, hdt, hc⟩)
        · refine ⟨d, Or.inl rfl, h.1, ?_⟩
          simp only [isBlockingEvent, Bool.and_eq_true, decide_eq_true_eq] at hb
          exact hb.1
        · exact ⟨dt, Or.inr hdt, hc⟩
      · rintro ⟨dt, (rfl | hdt), hc⟩
        · left
          simp only [isBlockingEvent, Bool.and_eq_true, decide_eq_true_eq]
          refine ⟨hc.2, ?_⟩
          rw [if_pos hc.2]
          rfl
        · exact Or.inr ⟨dt, hdt, hc⟩
    · rw [if_neg h]
      rw [ih]
      constructor
      · rintro ⟨dt, hdt, hc⟩
        exact ⟨dt, List.mem_cons_of_mem _ hdt, hc⟩
      · rintro ⟨dt, hdt, hc⟩
        rcases List.mem_cons.mp hdt with rfl | hdt
        · exact absurd ⟨hc.1, le_trans hc.2 (by norm_num [HIGH_RISK_THRESHOLD, CAUTION_THRESHOLD])⟩ h
        · exact ⟨dt, hdt, hc⟩

/-- A blackout item produces a blocking event exactly when it is 0–2
days away (impact forced to `"high"` there), or 0–5 days away with its
own stored impact defaulting to `"high"`. -/
theorem blackout_any_blocking (today : ℤ) (items : List BlackoutItem) :
    (blackoutEvents today items).any isBlockingEvent = true ↔
      ∃ item ∈ items, 0 ≤ item.date - today ∧
        (item.date - today ≤ BLOCK_THRESHOLD ∨
          (item.date - today ≤ HIGH_RISK_THRESHOLD ∧ item.impact.getD "high" = "high")) := by
  induction items with
  | nil => simp [blackoutEvents]
  | cons it rest ih =>
    simp only [blackoutEvents, List.filterMap_cons] at ih ⊢
    by_cases h : 0 ≤ it.date - today ∧ it.date - today ≤ CAUTION_THRESHOLD
    · rw [if_pos h]
      simp only [List.any_cons, Bool.or_eq_true, ih, List.mem_cons]
      constructor
      · rintro (hb | ⟨x, hx, hc⟩)
        · simp only [isBlockingEvent, Bool.and_eq_true, decide_eq_true_eq] at hb
          refine ⟨it, Or.inl rfl, h.1, ?_⟩
          by_cases hblk : it.date - today ≤ BLOCK_THRESHOLD
          · exact Or.inl hblk
          · right
            refine ⟨hb.1, ?_⟩
            rw [if_neg hblk] at hb
            exact beq_iff_eq.mp hb.2
        · exact ⟨x, Or.inr hx, hc⟩
      · rintro ⟨x, (rfl | hx), hc⟩
        · left
          simp only [isBlockingEvent, Bool.and_eq_true, decide_eq_true_eq]
          rcases hc.2 with hblk | ⟨hhr, himp⟩
          · refine ⟨le_trans hblk (by norm_num [BLOCK_THRESHOLD, HIGH_RISK_THRESHOLD]), ?_⟩
            rw [if_pos hblk]
            rfl
          · refine ⟨hhr, ?_⟩
            by_cases hblk : x.date - today ≤ BLOCK_THRESHOLD
            · rw [if_pos hblk]; rfl
            · rw [if_neg hblk]
              exact beq_iff_eq.mpr himp
        · exact Or.inr ⟨x, hx, hc⟩
    · rw [if_neg h]
      rw [ih]
      constructor
      · rintro ⟨x, hx, hc⟩
        exact ⟨x, List.mem_cons_of_mem _ hx, hc⟩
      · rintro ⟨x, hx, hc⟩
        rcases List.mem_cons.mp hx with rfl | hx
        · refine absurd ⟨hc.1, ?_⟩ h
          rcases hc.2 with hblk | ⟨hhr, _⟩
          · exact le_trans hblk (by norm_num [BLOCK_THRESHOLD, CAUTION_THRESHOLD])
          · exact le_trans hhr (by norm_num [HIGH_RISK_THRESHOLD, CAUTION_THRESHOLD])
        · exact ⟨x, hx, hc⟩

/-- C3 counterexample: an FOMC event 4 days away — farther than the
2-day block threshold — already sets `has_binary_event`, although every
event in the horizon is more than `BLOCK_THRESHOLD` days away.  (The
code gates `has_binary_event` on `HIGH_RISK_THRESHOLD = 5`, not on
`BLOCK_THRESHOLD = 2`.) -/
theorem event_horizon_block_counterexample :
    (get_event_horizon 0 [4] []).has_binary_event = true
    ∧ (get_event_horizon 0 [4] []).events.all
        (fun e => decide (BLOCK_THRESHOLD < e.days_away)) = true := by
  constructor <;> decide

/-- C3 amended: `has_binary_event` (with a non-null `event_override`
exactly then) is set iff some FOMC date is 0–5 days away, or some
blackout item is 0–2 days away or 0–5 days away with stored impact
`"high"` — i.e. the gate is the 5-day `HIGH_RISK_THRESHOLD`, not the
2-day `BLOCK_THRESHOLD`. -/
theorem event_horizon_binary_event_iff (today : ℤ) (fomc_dates : List ℤ)
    (blackout_dates : List BlackoutItem) :
    ((get_event_horizon today fomc_dates blackout_dates).has_binary_event = true ↔
      (∃ dt ∈ fomc_dates, 0 ≤ dt - today ∧ dt - today ≤ HIGH_RISK_THRESHOLD) ∨
      (∃ item ∈ blackout_dates, 0 ≤ item.date - today ∧
        (item.date - today ≤ BLOCK_THRESHOLD ∨
          (item.date - today ≤ HIGH_RISK_THRESHOLD ∧ item.impact.getD "high" = "high"))))
    ∧ (get_event_horizon today fomc_dates blackout_dates).event_override.isSome
        = (get_event_horizon today fomc_dates blackout_dates).has_binary_event := by
  constructor
  · simp only [get_event_horizon, insertionSort_any, List.any_append, Bool.or_eq_true]
    rw [fomc_any_blocking, blackout_any_blocking]
  · simp only [get_event_horizon, insertionSort_any]
    cases ((fomcEvents today fomc_dates ++ blackoutEvents today blackout_dates).any
        isBlockingEvent) <;> simp

/-- Python's `max(xs, key=f)` returns an element of `xs`. -/
theorem pyMaxBy_mem (f : GEXLevel → ℚ) (b : GEXLevel) (l : List GEXLevel) :
    pyMaxBy f b l ∈ b :: l := by
  induction l generalizing b with
  | nil => simp [pyMaxBy]
  | cons x xs ih =>
    rw [pyMaxBy]
    rcases List.mem_cons.mp (ih (if f x > f b then x else b)) with h | h
    · rw [h]
      split_ifs <;> simp
    · simp [List.mem_cons_of_mem, h]

/-- Python's `min(xs, key=f)` returns an element of `xs`. -/
theorem pyMinBy_mem (f : GEXLevel → ℚ) (b : GEXLevel) (l : List GEXLevel) :
    pyMinBy f b l ∈ b :: l := by
  induction l generalizing b with
  | nil => simp [pyMinBy]
  | cons x xs ih =>
    rw [pyMinBy]
    rcases List.mem_cons.mp (ih (if f x < f b then x else b)) with h | h
    · rw [h]
      split_ifs <;> simp
    · simp [List.mem_cons_of_mem, h]

/-- C8: on any profile containing a strike above (resp. below) spot,
`find_key_levels` returns a `call_wall` strictly above spot (resp. a
`put_wall` strictly below); on a non-empty profile with no strike above
(resp. below) spot, the defaults `spot+50` (resp. `spot−50`) are
returned. -/
theorem find_key_levels_walls (gex_levels : List GEXLevel) (spot_price : ℚ) :
    ((∃ g ∈ gex_levels, g.strike > spot_price) →
      (find_key_levels gex_levels spot_price).call_wall > spot_price)
    ∧ ((∃ g ∈ gex_levels, g.strike < spot_price) →
      (find_key_levels gex_levels spot_price).put_wall < spot_price)
    ∧ (gex_levels ≠ [] → (∀ g ∈ gex_levels, ¬g.strike > spot_price) →
      (find_key_levels gex_levels spot_price).call_wall = spot_price + 50)
    ∧ (gex_levels ≠ [] → (∀ g ∈ gex_levels, ¬g.strike < spot_price) →
      (find_key_levels gex_levels spot_price).put_wall = spot_price - 50) := by
  cases gex_levels with
  | nil =>
    refine ⟨?_, ?_, ?_, ?_⟩ <;> intro h <;> simp_all
  | cons g0 gs =>
    refine ⟨?_, ?_, ?_, ?_⟩
    · rintro ⟨g, hg, hgt⟩
      cases hA : (g0 :: gs).filter (fun x => decide (x.strike > spot_price)) with
      | nil =>
        exfalso
        have : g ∈ (g0 :: gs).filter (fun x => decide (x.strike > spot_price)) :=
          List.mem_filter.mpr ⟨hg, by simpa using hgt⟩
        simp [hA] at this
      | cons a as =>
        have hmem := pyMaxBy_mem (·.call_gex) a as
        rw [← hA] at hmem
        have := (List.mem_filter.mp hmem).2
        simp only [find_key_levels, hA]
        simpa using this
    · rintro ⟨g, hg, hlt⟩
      cases hB : (g0 :: gs).filter (fun x => decide (x.strike < spot_price)) with
      | nil =>
        exfalso
        have : g ∈ (g0 :: gs).filter (fun x => decide (x.strike < spot_price)) :=
          List.mem_filter.mpr ⟨hg, by simpa using hlt⟩
        simp [hB] at this
      | cons b bs =>
        have hmem := pyMinBy_mem (·.put_gex) b bs
        rw [← hB] at hmem
        have := (List.mem_filter.mp hmem).2
        simp only [find_key_levels, hB]
        simpa using this
    · intro _ hnone
      have hA : (g0 :: gs).filter (fun x => decide (x.strike > spot_price)) = [] := by
        simp only [List.filter_eq_nil_iff, decide_eq_true_eq]
        exact hnone
      simp only [find_key_levels, hA]
    · intro _ hnone
      have hB : (g0 :: gs).filter (fun x => decide (x.strike < spot_price)) = [] := by
        simp only [List.filter_eq_nil_iff, decide_eq_true_eq]
        exact hnone
      simp only [find_key_levels, hB]

/-- C8 witness: a two-level profile around spot 100 produces a call
wall above and a put wall below; a profile entirely below spot produces
the `spot+50` default. -/
theorem find_key_levels_walls_witness :
    (find_key_levels
        [⟨95, 1, 1, -2, 10, 10, 5, 5, "neutral"⟩,
         ⟨105, 1, 2, -1, 10, 10, 5, 5, "neutral"⟩] 100).call_wall > 100
    ∧ (find_key_levels
        [⟨95, 1, 1, -2, 10, 10, 5, 5, "neutral"⟩,
         ⟨105, 1, 2, -1, 10, 10, 5, 5, "neutral"⟩] 100).put_wall < 100
    ∧ (find_key_levels [⟨95, 1, 1, -2, 10, 10, 5, 5, "neutral"⟩] 100).call_wall
        = 100 + 50 :=
  ⟨(find_key_levels_walls _ 100).1
      ⟨⟨105, 1, 2, -1, 10, 10, 5, 5, "neutral"⟩, by simp, by norm_num⟩,
   (find_key_levels_walls _ 100).2.1
      ⟨⟨95, 1, 1, -2, 10, 10, 5, 5, "neutral"⟩, by simp, by norm_num⟩,
   (find_key_levels_walls _ 100).2.2.1 (by simp)
      (by rintro g hg; simp at hg; subst hg; norm_num)⟩

/-- C4 counterexample: the synthetic fallback carries no data-source
tag — at spot 6000 (SPX ladder, zero PRNG noise) it emits a level that
is *identical*, field for field (including `level_type =
"call_wall"`), to a level the live-chain path builds from concrete
chain data.  Nothing in the returned value distinguishes the estimated
level from a live-derived one. -/
theorem gex_estimated_indistinguishable :
    (⟨6050, 2.1, 2.625, -0.525, 14000, 3150, 7000, 1575, "call_wall"⟩ : GEXLevel)
      ∈ generate_estimated_gex (fun _ => 0) 6000 "SPX"
    ∧ gex_level_from_strike_data 6000 6050 14000 3150 7000 1575
        (1/19200) (1/21600)
      = ⟨6050, 2.1, 2.625, -0.525, 14000, 3150, 7000, 1575, "call_wall"⟩ := by
  constructor
  · rw [generate_estimated_gex]
    refine List.mem_map.mpr ⟨1, by norm_num, ?_⟩
    have hu : upperEq "SPX" "SPX" = true := rfl
    norm_num [hu, roundQ, pyInt, round_eq, abs_of_nonneg, abs_of_nonpos,
      GEXLevel.mk.injEq]
  · norm_num [gex_level_from_strike_data, roundQ, round_eq, GEXLevel.mk.injEq]

/-- C4 amended: fallback levels are not flagged as estimated — every
level the synthetic ladder produces uses the same `level_type`
vocabulary (`call_wall` / `put_wall` / `neutral` / `gamma_flip`) as the
live-chain level constructor, and `GEXLevel` carries no data-source
field; the only trace of the fallback is a server-side log line. -/
theorem gex_levels_untagged (noise : ℤ → ℚ) (spot_price : ℚ)
    (underlying : String) (spot2 strike : ℚ) (coi poi cv pv : ℤ)
    (cg pg : ℚ) :
    (generate_estimated_gex noise spot_price underlying).all
      (fun g => g.level_type == "call_wall" || g.level_type == "put_wall"
        || g.level_type == "neutral" || g.level_type == "gamma_flip") = true
    ∧ ((gex_level_from_strike_data spot2 strike coi poi cv pv cg pg).level_type
          = "call_wall"
        ∨ (gex_level_from_strike_data spot2 strike coi poi cv pv cg pg).level_type
          = "put_wall"
        ∨ (gex_level_from_strike_data spot2 strike coi poi cv pv cg pg).level_type
          = "neutral"
        ∨ (gex_level_from_strike_data spot2 strike coi poi cv pv cg pg).level_type
          = "gamma_flip") := by
  constructor
  · rw [List.all_eq_true]
    intro g hg
    rw [generate_estimated_gex] at hg
    obtain ⟨i, -, rfl⟩ := List.mem_map.mp hg
    dsimp only
    split_ifs <;> rfl
  · rw [gex_level_from_strike_data]
    dsimp only
    split_ifs <;> simp

/-- The Gaussian tail integral is odd in its endpoint. -/
theorem gauss_integral_odd (c : ℝ) :
    (∫ t in (0:ℝ)..(-c), Real.exp (-t ^ 2))
      = -∫ t in (0:ℝ)..c, Real.exp (-t ^ 2) := by
  have h := intervalIntegral.integral_comp_neg (a := (0:ℝ)) (b := c)
    (f := fun t => Real.exp (-t ^ 2))
  simp only [neg_sq, neg_zero] at h
  rw [intervalIntegral.integral_symm, h]

/-- The complement identity `Φ(x) + Φ(−x) = 1`. -/
theorem normCdf_add_neg (x : ℝ) : normCdf x + normCdf (-x) = 1 := by
  rw [normCdf, normCdf, neg_div, gauss_integral_odd]
  ring

/-- Put–call parity holds exactly for the closed-form prices:
`C − P = spot − strike·e^{−r·tau}`. -/
theorem bs_put_call_parity (spot strike rate tau vol : ℝ) :
    bsCallPrice spot strike rate tau vol - bsPutPrice spot strike rate tau vol
      = spot - strike * Real.exp (-(rate * tau)) := by
  have h1 := normCdf_add_neg (bs_d1 spot strike rate tau vol)
  have h2 := normCdf_add_neg (bs_d2 spot strike rate tau vol)
  have e1 : normCdf (-(bs_d1 spot strike rate tau vol))
      = 1 - normCdf (bs_d1 spot strike rate tau vol) := by linarith
  have e2 : normCdf (-(bs_d2 spot strike rate tau vol))
      = 1 - normCdf (bs_d2 spot strike rate tau vol) := by linarith
  rw [bsCallPrice, bsPutPrice, e1, e2]
  ring

/-- Rounding to two decimals moves a value by at most `1/200`. -/
theorem roundR_two_close (x : ℝ) : |roundR 2 x - x| ≤ 1 / 200 := by
  have h := abs_sub_round (x * 10 ^ 2)
  rw [abs_sub_comm] at h
  have e : roundR 2 x - x
      = (((round (x * 10 ^ 2) : ℤ) : ℝ) - x * 10 ^ 2) / 10 ^ 2 := by
    rw [roundR]; ring
  have h100 : |((10:ℝ) ^ 2)| = 100 := by norm_num
  rw [e, abs_div, h100]
  linarith

/-- On the Black–Scholes branch (`d > 0`, valid domain) the call leg
returns the rounded closed-form price with a clear error field. -/
theorem calculate_call_greeks_bs (stock_price strike : ℝ) (days_to_expiry : ℤ)
    (volatility : ℝ) (hd : ¬ days_to_expiry ≤ 0)
    (hdom : ¬(stock_price ≤ 0 ∨ strike ≤ 0 ∨ volatility = 0)) :
    outPrice (calculate_call_greeks stock_price strike days_to_expiry volatility)
      = some (roundR 2 (bsCallPrice stock_price strike (risk_free_rate / 100)
          ((days_to_expiry : ℝ) / 365) (volatility / 100)))
    ∧ legError (calculate_call_greeks stock_price strike days_to_expiry volatility)
      = none := by
  rw [calculate_call_greeks, if_neg hd, if_neg hdom]
  exact ⟨rfl, rfl⟩

/-- Same for the put leg. -/
theorem calculate_put_greeks_bs (stock_price strike : ℝ) (days_to_expiry : ℤ)
    (volatility : ℝ) (hd : ¬ days_to_expiry ≤ 0)
    (hdom : ¬(stock_price ≤ 0 ∨ strike ≤ 0 ∨ volatility = 0)) :
    outPrice (calculate_put_greeks stock_price strike days_to_expiry volatility)
      = some (roundR 2 (bsPutPrice stock_price strike (risk_free_rate / 100)
          ((days_to_expiry : ℝ) / 365) (volatility / 100)))
    ∧ legError (calculate_put_greeks stock_price strike days_to_expiry volatility)
      = none := by
  rw [calculate_put_greeks, if_neg hd, if_neg hdom]
  exact ⟨rfl, rfl⟩

/-- C7: for every valid input (`spot, strike, vol > 0`, `dte > 0`) the
call and put prices returned by the pricing primitives satisfy put–call
parity `C − P = spot − strike·e^{−r·tau}` within the floating/rounding
tolerance of `1/100` (each price is rounded to two decimals). -/
theorem greeks_put_call_parity (stock_price strike volatility : ℝ)
    (days_to_expiry : ℤ) (hsp : 0 < stock_price) (hk : 0 < strike)
    (hv : 0 < volatility) (hd : 0 < days_to_expiry) :
    |(outPrice (calculate_call_greeks stock_price strike days_to_expiry volatility)).getD 0
      - (outPrice (calculate_put_greeks stock_price strike days_to_expiry volatility)).getD 0
      - (stock_price - strike *
          Real.exp (-(risk_free_rate / 100 * ((days_to_expiry : ℝ) / 365))))|
      ≤ 1 / 100 := by
  have hdle : ¬ days_to_expiry ≤ 0 := by omega
  have hdom : ¬(stock_price ≤ 0 ∨ strike ≤ 0 ∨ volatility = 0) := by
    push_neg
    exact ⟨hsp, hk, ne_of_gt hv⟩
  obtain ⟨hcp, -⟩ := calculate_call_greeks_bs stock_price strike days_to_expiry
    volatility hdle hdom
  obtain ⟨hpp, -⟩ := calculate_put_greeks_bs stock_price strike days_to_expiry
    volatility hdle hdom
  rw [hcp, hpp, Option.getD_some, Option.getD_some]
  have hpar := bs_put_call_parity stock_price strike (risk_free_rate / 100)
    ((days_to_expiry : ℝ) / 365) (volatility / 100)
  have h1 := roundR_two_close (bsCallPrice stock_price strike (risk_free_rate / 100)
    ((days_to_expiry : ℝ) / 365) (volatility / 100))
  have h2 := roundR_two_close (bsPutPrice stock_price strike (risk_free_rate / 100)
    ((days_to_expiry : ℝ) / 365) (volatility / 100))
  have e : roundR 2 (bsCallPrice stock_price strike (risk_free_rate / 100)
        ((days_to_expiry : ℝ) / 365) (volatility / 100))
      - roundR 2 (bsPutPrice stock_price strike (risk_free_rate / 100)
        ((days_to_expiry : ℝ) / 365) (volatility / 100))
      - (stock_price - strike *
          Real.exp (-(risk_free_rate / 100 * ((days_to_expiry : ℝ) / 365))))
      = (roundR 2 (bsCallPrice stock_price strike (risk_free_rate / 100)
          ((days_to_expiry : ℝ) / 365) (volatility / 100))
          - bsCallPrice stock_price strike (risk_free_rate / 100)
            ((days_to_expiry : ℝ) / 365) (volatility / 100))
        - (roundR 2 (bsPutPrice stock_price strike (risk_free_rate / 100)
            ((days_to_expiry : ℝ) / 365) (volatility / 100))
          - bsPutPrice stock_price strike (risk_free_rate / 100)
            ((days_to_expiry : ℝ) / 365) (volatility / 100)) := by
    rw [← hpar]
    ring
  rw [e]
  refine le_trans (abs_sub _ _) ?_
  linarith

/-- C7 witness: at spot 100, strike 100, vol 25 %, 30 days, the two leg
prices satisfy parity within tolerance. -/
theorem greeks_put_call_parity_witness :
    |(outPrice (calculate_call_greeks 100 100 30 25)).getD 0
      - (outPrice (calculate_put_greeks 100 100 30 25)).getD 0
      - (100 - 100 * Real.exp (-(risk_free_rate / 100 * (((30:ℤ) : ℝ) / 365))))|
      ≤ 1 / 100 :=
  greeks_put_call_parity 100 100 25 30 (by norm_num) (by norm_num)
    (by norm_num) (by norm_num)

/-- C6 counterexample: at `days_to_expiry = −1` the intrinsic-value
outcome *is* reported as an error — the leg dictionary carries
`error = "Option has expired"`, and `calculate_ipmcc_position` rejects
a position whose long leg has `dte = −1` with that error. -/
theorem expired_option_error_counterexample :
    legError (calculate_call_greeks 100 90 (-1) 25) = some "Option has expired"
    ∧ ipmccOk (calculate_ipmcc_position 100 90 (-1) 25 95 7 30 1) = false := by
  constructor
  · rw [calculate_call_greeks, if_pos (by omega : (-1:ℤ) ≤ 0)]
    simp only [legError]
    rw [if_pos (by omega : (-1:ℤ) < 0)]
  · rw [calculate_ipmcc_position,
      calculate_call_greeks, if_pos (by omega : (-1:ℤ) ≤ 0)]
    simp only [if_pos (by omega : (-1:ℤ) < 0)]
    rfl

/-- C6 amended: for every spot, strike and volatility, pricing with
`days_to_expiry ≤ 0` returns price = intrinsic, delta = ±100 or 0 by
moneyness, gamma = theta = vega = 0 and extrinsic = 0; this outcome is
error-free exactly when `days_to_expiry = 0` — a strictly negative
`days_to_expiry` sets the `"Option has expired"` error. -/
theorem expired_option_edge (stock_price strike volatility : ℝ)
    (days_to_expiry : ℤ) (hd : days_to_expiry ≤ 0) :
    outPrice (calculate_call_greeks stock_price strike days_to_expiry volatility)
      = some (max 0 (stock_price - strike))
    ∧ outDelta (calculate_call_greeks stock_price strike days_to_expiry volatility)
      = some (if stock_price > strike then 100 else 0)
    ∧ outGamma (calculate_call_greeks stock_price strike days_to_expiry volatility)
      = some 0
    ∧ outTheta (calculate_call_greeks stock_price strike days_to_expiry volatility)
      = some 0
    ∧ outVega (calculate_call_greeks stock_price strike days_to_expiry volatility)
      = some 0
    ∧ outExtrinsic (calculate_call_greeks stock_price strike days_to_expiry volatility)
      = some 0
    ∧ (legError (calculate_call_greeks stock_price strike days_to_expiry volatility)
        = none ↔ days_to_expiry = 0)
    ∧ outPrice (calculate_put_greeks stock_price strike days_to_expiry volatility)
      = some (max 0 (strike - stock_price))
    ∧ outDelta (calculate_put_greeks stock_price strike days_to_expiry volatility)
      = some (if stock_price < strike then -100 else 0)
    ∧ outGamma (calculate_put_greeks stock_price strike days_to_expiry volatility)
      = some 0
    ∧ outTheta (calculate_put_greeks stock_price strike days_to_expiry volatility)
      = some 0
    ∧ outVega (calculate_put_greeks stock_price strike days_to_expiry volatility)
      = some 0
    ∧ outExtrinsic (calculate_put_greeks stock_price strike days_to_expiry volatility)
      = some 0
    ∧ (legError (calculate_put_greeks stock_price strike days_to_expiry volatility)
        = none ↔ days_to_expiry = 0) := by
  rw [calculate_call_greeks, if_pos hd, calculate_put_greeks, if_pos hd]
  refine ⟨rfl, rfl, rfl, rfl, rfl, rfl, ?_, rfl, rfl, rfl, rfl, rfl, rfl, ?_⟩ <;>
    · simp only [legError]
      split_ifs with h
      · exact iff_of_false (by simp) (by omega)
      · exact iff_of_true rfl (by omega)

/-- C6 witness: at `days_to_expiry = 0`, spot 100, strike 90, vol 25 %,
the edge case returns the intrinsic-value greeks with no error. -/
theorem expired_option_edge_witness :
    outPrice (calculate_call_greeks 100 90 0 25) = some (max 0 (100 - 90))
    ∧ outDelta (calculate_call_greeks 100 90 0 25)
      = some (if (100:ℝ) > 90 then 100 else 0)
    ∧ outGamma (calculate_call_greeks 100 90 0 25) = some 0
    ∧ outTheta (calculate_call_greeks 100 90 0 25) = some 0
    ∧ outVega (calculate_call_greeks 100 90 0 25) = some 0
    ∧ outExtrinsic (calculate_call_greeks 100 90 0 25) = some 0
    ∧ (legError (calculate_call_greeks 100 90 0 25) = none ↔ (0:ℤ) = 0)
    ∧ outPrice (calculate_put_greeks 100 90 0 25) = some (max 0 (90 - 100))
    ∧ outDelta (calculate_put_greeks 100 90 0 25)
      = some (if (100:ℝ) < 90 then -100 else 0)
    ∧ outGamma (calculate_put_greeks 100 90 0 25) = some 0
    ∧ outTheta (calculate_put_greeks 100 90 0 25) = some 0
    ∧ outVega (calculate_put_greeks 100 90 0 25) = some 0
    ∧ outExtrinsic (calculate_put_greeks 100 90 0 25) = some 0
    ∧ (legError (calculate_put_greeks 100 90 0 25) = none ↔ (0:ℤ) = 0) :=
  expired_option_edge 100 90 25 0 le_rfl

/-- Under valid numeric inputs and a non-negative expiry, a call leg
always computes with a clear error field. -/
theorem calculate_call_greeks_ok (stock_price strike : ℝ) (days_to_expiry : ℤ)
    (volatility : ℝ) (hsp : 0 < stock_price) (hk : 0 < strike)
    (hv : 0 < volatility) (hd : 0 ≤ days_to_expiry) :
    ∃ g, calculate_call_greeks stock_price strike days_to_expiry volatility
        = .result g ∧ g.error = none := by
  by_cases h : days_to_expiry ≤ 0
  · refine ⟨_, by rw [calculate_call_greeks, if_pos h], ?_⟩
    simp only
    rw [if_neg (by omega : ¬ days_to_expiry < 0)]
  · refine ⟨_, by
      rw [calculate_call_greeks, if_neg h,
        if_neg (by push_neg; exact ⟨hsp, hk, ne_of_gt hv⟩)], rfl⟩

/-- C1 counterexample: with `long_strike = 110 ≥ short_strike = 105`
(and `long_dte = 300 > short_dte = 7`, all other inputs valid),
`calculate_ipmcc_position` raises no structural-validation error — it
returns a fully computed position analysis. -/
theorem ipmcc_no_validation_counterexample :
    ipmccOk (calculate_ipmcc_position 100 110 300 25 105 7 30 1) = true := by
  obtain ⟨lg, hlg, hle⟩ := calculate_call_greeks_ok 100 110 300 25
    (by norm_num) (by norm_num) (by norm_num) (by norm_num)
  obtain ⟨sg, hsg, hse⟩ := calculate_call_greeks_ok 100 105 7 30
    (by norm_num) (by norm_num) (by norm_num) (by norm_num)
  rw [calculate_ipmcc_position]
  simp only [hlg, hsg, hle, hse, ipmccOk]

/-- C1 amended: `calculate_ipmcc_position` performs no structural
validation at all — for every input whose two legs are numerically
valid (positive spot, strikes and vols, non-negative expiries) it
returns a computed analysis, regardless of how `long_strike` compares
to `short_strike` or `long_dte` to `short_dte`.  (The
`long_strike < short_strike` check lives in the separate trade
validation schemas, not in the position modeler.) -/
theorem ipmcc_no_structural_validation (stock_price long_strike : ℝ)
    (long_dte : ℤ) (long_iv short_strike : ℝ) (short_dte : ℤ)
    (short_iv : ℝ) (quantity : ℤ) (hsp : 0 < stock_price)
    (hls : 0 < long_strike) (hss : 0 < short_strike) (hli : 0 < long_iv)
    (hsi : 0 < short_iv) (hld : 0 ≤ long_dte) (hsd : 0 ≤ short_dte) :
    ipmccOk (calculate_ipmcc_position stock_price long_strike long_dte long_iv
      short_strike short_dte short_iv quantity) = true := by
  obtain ⟨lg, hlg, hle⟩ := calculate_call_greeks_ok stock_price long_strike
    long_dte long_iv hsp hls hli hld
  obtain ⟨sg, hsg, hse⟩ := calculate_call_greeks_ok stock_price short_strike
    short_dte short_iv hsp hss hsi hsd
  rw [calculate_ipmcc_position]
  simp only [hlg, hsg, hle, hse, ipmccOk]

/-- C1 witness for the amended statement: another violating input
(`long_strike = 60 ≥ short_strike = 55`, two contracts) also yields a
computed analysis. -/
theorem ipmcc_no_structural_validation_witness :
    ipmccOk (calculate_ipmcc_position 50 60 200 40 55 10 35 2) = true :=
  ipmcc_no_structural_validation 50 60 200 40 55 10 35 2 (by norm_num)
    (by norm_num) (by norm_num) (by norm_num) (by norm_num) (by norm_num)
    (by norm_num)

/-- C5 counterexample: a solver failure (no volatility in the bounded
search range reproduces the observed price) and an invalid-input call
(`days_to_expiry = 0`) return the *same* value, `None` — the caller
cannot distinguish numerical non-convergence from the no-data case. -/
theorem implied_volatility_indistinguishable :
    implied_volatility_from_price
        (.error "no volatility in search range reproduces price") 30 5 = none
    ∧ implied_volatility_from_price (.ok 25) 0 5 = none
    ∧ implied_volatility_from_price
        (.error "no volatility in search range reproduces price") 30 5
      = implied_volatility_from_price (.ok 25) 0 5 := by
  refine ⟨?_, ?_, ?_⟩ <;> rfl

/-- C5 amended: `implied_volatility_from_price` collapses every failure
mode to `None`: a solver exception yields `None`, invalid inputs
(`days_to_expiry ≤ 0` or `option_price ≤ 0`) yield `None`, and only a
successful solve returns a (rounded) volatility.  The non-convergence
case is logged server-side but is not reported distinctly to the
caller. -/
theorem implied_volatility_failure_modes (msg : String) (vol : ℚ)
    (days_to_expiry : ℤ) (option_price : ℚ) :
    implied_volatility_from_price (.error msg) days_to_expiry option_price = none
    ∧ (days_to_expiry ≤ 0 ∨ option_price ≤ 0 →
        implied_volatility_from_price (.ok vol) days_to_expiry option_price = none)
    ∧ (0 < days_to_expiry → 0 < option_price →
        implied_volatility_from_price (.ok vol) days_to_expiry option_price
          = some (roundQ 2 vol)) := by
  refine ⟨?_, ?_, ?_⟩
  · rw [implied_volatility_from_price]
    split_ifs <;> rfl
  · intro h
    rw [implied_volatility_from_price, if_pos h]
  · intro h1 h2
    rw [implied_volatility_from_price,
      if_neg (by push_neg; exact ⟨by omega, h2⟩)]

/-- C5 witness for the amended statement, at concrete inputs covering
all three modes. -/
theorem implied_volatility_failure_modes_witness :
    implied_volatility_from_price (.error "x") 30 5 = none
    ∧ implied_volatility_from_price (.ok 25) (-3) 5 = none
    ∧ implied_volatility_from_price (.ok 25) 30 5 = some (roundQ 2 25) :=
  ⟨(implied_volatility_failure_modes "x" 25 30 5).1,
   (implied_volatility_failure_modes "x" 25 (-3) 5).2.1 (Or.inl (by norm_num)),
   (implied_volatility_failure_modes "x" 25 30 5).2.2 (by norm_num) (by norm_num)⟩
